import Mathlib

/-!
Shallow embedding of the ai-mcp-agent repository core
(src/app/agent.py and src/mcp_server/mcp_server.py), with theorems
checking the natural-language specification's claims against it.

Python strings are modelled as Lean `String` (a structure over
`List Char`), Python numbers as `Int`/`Rat`, Python dicts as
association lists so that key presence is observable, and Python
exceptions as explicit `PyResult`/`Except` values.
-/

namespace AIMCPAgent

/-! ## Python string primitives (modelled over `List Char`) -/

/-- Bool test that `p` is a leading segment of `s` (character lists). -/
def leadsCL : List Char → List Char → Bool
  | [], _ => true
  | _ :: _, [] => false
  | p :: ps, c :: cs => p == c && leadsCL ps cs

/-- Bool test that `pat` occurs somewhere inside `s`; models the Python
substring operator `pat in s` on character lists. -/
def containsCL (pat : List Char) : List Char → Bool
  | [] => pat.isEmpty
  | c :: cs => leadsCL pat (c :: cs) || containsCL pat cs

/-- Models Python `pat in s` for strings. -/
def strContainsB (s pat : String) : Bool :=
  containsCL pat.data s.data

/-- Models Python `s.startswith(pat)`; used only to state properties
about result strings ("begins with Error"). -/
def strStartsWith (s pat : String) : Bool :=
  leadsCL pat.data s.data

/-- Lower-casing of one character for the alphabets this repository
uses: ASCII A-Z and Cyrillic А-Я plus Ё; models Python `str.lower`
on those ranges (all query keywords and the category literal fall in
them). -/
def pyLowerChar (c : Char) : Char :=
  if 'A' ≤ c ∧ c ≤ 'Z' then Char.ofNat (c.toNat + 32)
  else if 'А' ≤ c ∧ c ≤ 'Я' then Char.ofNat (c.toNat + 32)
  else if c = 'Ё' then 'ё'
  else c

/-- Models Python `s.lower()`. -/
def pyLower (s : String) : String :=
  ⟨s.data.map pyLowerChar⟩

/-- Models Python `s.strip()`: drop whitespace at both ends. -/
def pyStrip (s : String) : String :=
  ⟨((s.data.dropWhile Char.isWhitespace).reverse.dropWhile Char.isWhitespace).reverse⟩

/-- Split on whitespace, keeping empty segments (auxiliary). -/
def splitWsAux : List Char → List Char → List (List Char)
  | [], acc => [acc.reverse]
  | c :: rest, acc =>
    if c.isWhitespace then acc.reverse :: splitWsAux rest []
    else splitWsAux rest (c :: acc)

/-- Models Python `s.split()` (no separator argument): split on runs of
whitespace and drop empty tokens. -/
def pyWords (s : String) : List String :=
  ((splitWsAux s.data []).filter (fun l => l ≠ [])).map (fun l => ⟨l⟩)

/-- Models Python `s.split(sep)` for a non-empty separator: split at each
non-overlapping occurrence of `sep`, scanning left to right. -/
def splitOnCL (sep : List Char) (s : List Char) (acc : List Char) : List (List Char) :=
  match s with
  | [] => [acc.reverse]
  | c :: cs =>
    if leadsCL sep (c :: cs) ∧ sep ≠ [] then
      acc.reverse :: splitOnCL sep (cs.drop (sep.length - 1)) []
    else
      splitOnCL sep cs (c :: acc)
termination_by s.length
decreasing_by
  · simp only [List.length_cons]
    have h := List.length_drop (sep.length - 1) cs
    omega
  · simp [List.length_cons]

/-- Models Python `s.split(sep)` at the string level. -/
def pySplitOn (s sep : String) : List String :=
  (splitOnCL sep.data s.data []).map (fun l => ⟨l⟩)

/-- Models Python `int(s)`: optional surrounding whitespace, optional
sign, then one or more decimal digits (underscore grouping and
non-ASCII digits are not modelled). `none` models `ValueError`. -/
def pyInt (s : String) : Option Int :=
  let cs := (s.data.dropWhile Char.isWhitespace).reverse.dropWhile Char.isWhitespace |>.reverse
  let (sign, digits) : Int × List Char :=
    match cs with
    | '-' :: rest => (-1, rest)
    | '+' :: rest => (1, rest)
    | rest => (1, rest)
  if digits ≠ [] ∧ digits.all Char.isDigit then
    some (sign * (digits.foldl (fun acc c => acc * 10 + (c.toNat - '0'.toNat)) 0 : Nat))
  else
    none

/-- Numeric value of a digit list (most significant first). -/
def digitsVal (ds : List Char) : Nat :=
  ds.foldl (fun acc c => acc * 10 + (c.toNat - '0'.toNat)) 0

/-- Models Python `float(s)` on plain decimal literals: optional
whitespace, optional sign, digits with an optional fractional part
(`"15"`, `"3.5"`, `".5"`, `"5."`); exponents, `inf` and `nan` are not
modelled. `none` models `ValueError`. -/
def pyFloat (s : String) : Option Rat :=
  let cs := (s.data.dropWhile Char.isWhitespace).reverse.dropWhile Char.isWhitespace |>.reverse
  let (sign, body) : Rat × List Char :=
    match cs with
    | '-' :: rest => (-1, rest)
    | '+' :: rest => (1, rest)
    | rest => (1, rest)
  let ip := body.takeWhile Char.isDigit
  let r1 := body.dropWhile Char.isDigit
  match r1 with
  | [] =>
    if ip ≠ [] then some (sign * (digitsVal ip : Rat)) else none
  | '.' :: r2 =>
    let fp := r2.takeWhile Char.isDigit
    let r3 := r2.dropWhile Char.isDigit
    if r3 = [] ∧ (ip ≠ [] ∨ fp ≠ []) then
      some (sign * ((digitsVal ip : Rat) + (digitsVal fp : Rat) / (10 : Rat) ^ fp.length))
    else none
  | _ => none

/-- Stand-in for Python's `repr` of a float result in f-strings: an
integral value prints with a trailing `.0` (e.g. `15.0`), as Python
does; non-integral values print as the rational. No claim depends on
the exact rendering. -/
def ratRepr (q : Rat) : String :=
  if q.den = 1 then toString q.num ++ ".0" else toString q

/-- Models `" ".join(parts)`. -/
def joinSpace : List String → String
  | [] => ""
  | [x] => x
  | x :: xs => x ++ " " ++ joinSpace xs

/-! ## Values and Python-style results -/

/-- A JSON-like value, modelling the Python values the repository
passes around (numbers, strings, booleans, arrays, objects). Objects
are association lists in literal order so key presence is observable. -/
inductive JVal
  | num (q : Rat)
  | str (s : String)
  | bool (b : Bool)
  | arr (l : List JVal)
  | obj (l : List (String × JVal))

/-- Result of running a Python fragment that may raise: `ok` is normal
return, `exn` carries the exception text. -/
inductive PyResult (α : Type)
  | ok (a : α)
  | exn (msg : String)

/-! ## Calculator tool (src/app/agent.py, lines 36-63)

`eval` is Python's built-in general evaluator; it is modelled as an
oracle parameter `ev : String → PyResult Rat` (a result or a raised
exception), since its behaviour is not code of this repository. The
rest of the function body is translated directly. -/

/-- The body of `calculator` inside its `try:` block.  Mirrors the
source: if the expression contains `%` and splits on `" of "` into
exactly two parts, do the percentage computation (a float conversion
failure raises); otherwise evaluate via `eval` (the oracle `ev`). -/
def calcBody (ev : String → PyResult Rat) (expression : String) : PyResult String :=
  if strContainsB expression "%" then
    match pySplitOn expression " of " with
    | [p0, p1] =>
      let percent_str := pyStrip ⟨((pyStrip p0).data.filter (fun c => c ≠ '%'))⟩
      let amount_str := pyStrip p1
      match pyFloat percent_str, pyFloat amount_str with
      | some percent, some amount =>
        .ok (ratRepr percent ++ "% of " ++ ratRepr amount ++ " = "
              ++ ratRepr ((percent / 100) * amount))
      | _, _ => .exn "could not convert string to float"
    | _ =>
      match ev expression with
      | .ok r => .ok (expression ++ " = " ++ ratRepr r)
      | .exn m => .exn m
  else
    match ev expression with
    | .ok r => .ok (expression ++ " = " ++ ratRepr r)
    | .exn m => .exn m

/-- `calculator` (src/app/agent.py:36-63): runs the body and converts
any exception into an `"Error calculating: ..."` string. -/
def calculator (ev : String → PyResult Rat) (expression : String) : String :=
  match calcBody ev expression with
  | .ok s => s
  | .exn m => "Error calculating: " ++ m

/-! ## MCP transport client (src/app/agent.py, lines 185-220)

`MCPClient` holds a subprocess and a `request_id` counter starting at
0. `call_tool` increments the counter, sends one JSON-RPC-style
request line, reads one response line and classifies it.  The wire and
`json.loads` are modelled by the raw `line` the read returns and a
decode oracle `decode : String → Option MCPResponse` (`none` models a
raised `json.JSONDecodeError`). -/

/-- The request object built in `call_tool` (src/app/agent.py:196-204). -/
structure MCPRequest where
  jsonrpc : String
  id : Nat
  method : String
  name : String
  arguments : List (String × JVal)

/-- A decoded response object: which of the keys `id`, `result`,
`error` are present and their values.  `call_tool` only ever tests
`"result" in response` and `"error" in response`; the `id` field is
carried so theorems can speak about it. -/
structure MCPResponse where
  id : Option Int
  result : Option JVal
  error : Option JVal

/-- What `call_tool` does after sending: its Python return value or
the exception it raises. -/
inductive CallOutcome
  | result (v : JVal)      -- `return response["result"]`
  | mcpError (e : JVal)    -- `raise Exception(f"MCP Error: ...")`
  | retNone                -- `return None`
  | decodeFail             -- `json.loads` raised on the response line

/-- `MCPClient.call_tool` (src/app/agent.py:192-220): increment the id
counter, build the request, then read a line; an empty stripped line
returns `None`; otherwise decode and return `result`, raise on
`error`, and fall through to `None` when neither key is present.
Returns (new counter value, request sent, outcome). -/
def call_tool (decode : String → Option MCPResponse) (request_id : Nat)
    (tool_name : String) (args : List (String × JVal)) (line : String) :
    Nat × MCPRequest × CallOutcome :=
  let newId := request_id + 1
  let req : MCPRequest := ⟨"2.0", newId, "tools/call", tool_name, args⟩
  let response_line := pyStrip line
  let outcome :=
    if response_line ≠ "" then
      match decode response_line with
      | none => CallOutcome.decodeFail
      | some response =>
        match response.result with
        | some v => CallOutcome.result v
        | none =>
          match response.error with
          | some e => CallOutcome.mcpError e
          | none => CallOutcome.retNone
    else CallOutcome.retNone
  (newId, req, outcome)

/-- A client's lifetime: starting from counter value `request_id`, run
`call_tool` once per entry of `calls` (tool name, arguments, and the
raw line the response stream yields), threading the counter exactly as
the Python object does. -/
def runClient (decode : String → Option MCPResponse) (request_id : Nat) :
    List (String × List (String × JVal) × String) → List (MCPRequest × CallOutcome)
  | [] => []
  | (name, args, line) :: rest =>
    let (newId, req, out) := call_tool decode request_id name args line
    (req, out) :: runClient decode newId rest

/-- The ids sent over a client's lifetime, in order. -/
def sentIds (decode : String → Option MCPResponse) (request_id : Nat)
    (calls : List (String × List (String × JVal) × String)) : List Nat :=
  (runClient decode request_id calls).map (fun rc => rc.1.id)

/-! ## Intent routing: `process_user_query` (src/app/agent.py, lines 227-278)

The function is an if/elif chain over substring tests on the lowered
query.  The MCP client is modelled as an optional oracle
`mcp : Option (String → CallArgs → Except String String)` returning the
serialized result (`json.dumps(result, ensure_ascii=False)`) or the
text of a raised exception.  The returned trace records every tool
invocation made (MCP calls and the direct local `calculator` call)
together with the final response string. -/

/-- The argument mapping passed to a tool, shaped after the literal
dicts in the source: `{}`, `{"category": c}`, `{"product_id": n}`,
`{"expression": e}`. -/
inductive CallArgs
  | emptyArgs
  | categoryArg (c : String)
  | productIdArg (n : Int)
  | expressionArg (e : String)
deriving DecidableEq, Repr

/-- Rule 1 condition (src/app/agent.py:237): the query contains a
"list everything" phrase. -/
def listAllCond (ql : String) : Bool :=
  strContainsB ql "список" || strContainsB ql "все продукты" || strContainsB ql "show products"

/-- Rule 2 condition (src/app/agent.py:241): category phrase. -/
def categoryCond (ql : String) : Bool :=
  strContainsB ql "категория" || strContainsB ql "category" || strContainsB ql "электроника"

/-- Rule 3 condition (src/app/agent.py:246): statistics phrase. -/
def statsCond (ql : String) : Bool :=
  strContainsB ql "статистика" || strContainsB ql "statistics" || strContainsB ql "средняя цена"

/-- Rule 4 condition (src/app/agent.py:250): get-by-id phrase. -/
def productCond (ql : String) : Bool :=
  strContainsB ql "product" || strContainsB ql "товар" || strContainsB ql "id"

/-- Rule 5 condition (src/app/agent.py:263): add-product phrase. -/
def addCond (ql : String) : Bool :=
  strContainsB ql "добавь" || strContainsB ql "add product" || strContainsB ql "новый"

/-- Rule 6 condition (src/app/agent.py:266): calculate/discount phrase. -/
def calcCond (ql : String) : Bool :=
  strContainsB ql "%" || strContainsB ql "скидка" || strContainsB ql "discount"

/-- The `for i, word in enumerate(words):` loop of the get-by-id branch
(src/app/agent.py:252-261): find a word equal to `"id"` that has a
successor parsing as an int, call `get_product`, append one response
part and break; `int` failures and call exceptions are swallowed by
the bare `except: pass` and the scan continues.  Returns (calls made,
response parts appended). -/
def findIdLoop (mcp : Option (String → CallArgs → Except String String)) :
    List String → List (String × CallArgs) × List String
  | [] => ([], [])
  | w :: rest =>
    if w = "id" then
      match rest with
      | [] => findIdLoop mcp rest
      | next :: _ =>
        match pyInt next with
        | none => findIdLoop mcp rest
        | some product_id =>
          match mcp with
          | none =>
            -- `result = {}` when no client; append and break
            ([], ["Product " ++ toString product_id ++ ": \x7b\x7d"])
          | some f =>
            match f "get_product" (CallArgs.productIdArg product_id) with
            | .ok s =>
              ([("get_product", CallArgs.productIdArg product_id)],
               ["Product " ++ toString product_id ++ ": " ++ s])
            | .error _ =>
              -- the call was made and raised; `except: pass` continues the scan
              (("get_product", CallArgs.productIdArg product_id) :: (findIdLoop mcp rest).1,
               (findIdLoop mcp rest).2)
    else findIdLoop mcp rest

/-- The loop of the get-by-id branch finds a usable id exactly when
some word equals `"id"` and its immediate successor parses as an
integer; used to state the no-parseable-id hypothesis. -/
def hasValidIdToken : List String → Bool
  | [] => false
  | w :: rest =>
    (w == "id" && (match rest with
                   | next :: _ => (pyInt next).isSome
                   | [] => false))
      || hasValidIdToken rest

/-- `process_user_query` (src/app/agent.py:227-278).  Returns the trace
of tool invocations and the response string `" ".join(response_parts)`.
Exceptions raised by MCP calls in rules 1-3 are caught by the outer
`except` which appends `"Error: ..."`; rule 4 swallows them inside its
loop; the `calculator` call in rule 6 cannot raise. -/
def process_user_query (mcp : Option (String → CallArgs → Except String String))
    (ev : String → PyResult Rat) (query : String) :
    List (String × CallArgs) × String :=
  let query_lower := pyLower query
  let cp : List (String × CallArgs) × List String :=
    if listAllCond query_lower then
      match mcp with
      | none => ([], ["Products: \x7b\"products\": []\x7d"])
      | some f =>
        match f "list_products" CallArgs.emptyArgs with
        | .ok s => ([("list_products", CallArgs.emptyArgs)], ["Products: " ++ s])
        | .error m => ([("list_products", CallArgs.emptyArgs)], ["Error: " ++ m])
    else if categoryCond query_lower then
      match mcp with
      | none => ([], ["Products in Электроника: \x7b\"products\": []\x7d"])
      | some f =>
        match f "list_products" (CallArgs.categoryArg "Электроника") with
        | .ok s =>
          ([("list_products", CallArgs.categoryArg "Электроника")],
           ["Products in Электроника: " ++ s])
        | .error m =>
          ([("list_products", CallArgs.categoryArg "Электроника")], ["Error: " ++ m])
    else if statsCond query_lower then
      match mcp with
      | none => ([], ["Statistics: \x7b\x7d"])
      | some f =>
        match f "get_statistics" CallArgs.emptyArgs with
        | .ok s => ([("get_statistics", CallArgs.emptyArgs)], ["Statistics: " ++ s])
        | .error m => ([("get_statistics", CallArgs.emptyArgs)], ["Error: " ++ m])
    else if productCond query_lower then
      findIdLoop mcp (pyWords query_lower)
    else if addCond query_lower then
      ([], ["To add a product, please provide: name, price, category, and in_stock status."])
    else if calcCond query_lower then
      ([("calculator", CallArgs.expressionArg "15% of 50000")],
       ["Calculation: " ++ calculator ev "15% of 50000"])
    else
      ([], ["How can I help you with product management?"])
  (cp.1, joinSpace cp.2)

/-! ## MCP server (src/mcp_server/mcp_server.py)

The server keeps a process-wide list `products_data` (loaded lazily
from `PRODUCTS_FILE`) and four tools.  State is modelled explicitly:
`mem` is `products_data` and `file` is the products file (`none` when
the file does not exist, `some l` its parsed contents).  Each tool is
a state-passing function; `save_products` writes `mem` to `file`. -/

/-- A product record.  The code accesses `id` and `price` by
subscript and `category`/`in_stock` through `.get` with defaults, so
the latter two are optional. -/
structure Product where
  id : Int
  name : String
  price : Rat
  category : Option String
  in_stock : Option Bool

/-- The server's mutable state: the in-memory `products_data` global
and the products file. -/
structure ServerState where
  mem : List Product
  file : Option (List Product)

/-- `load_products` (src/mcp_server/mcp_server.py:26-32): if the
in-memory list is empty and the file exists, read the file into
memory; return the list. -/
def load_products (s : ServerState) : List Product × ServerState :=
  match s.mem, s.file with
  | [], some l => (l, ⟨l, some l⟩)
  | mem, _ => (mem, s)

/-- `save_products` (src/mcp_server/mcp_server.py:35-39): write the
in-memory list to the products file. -/
def save_products (s : ServerState) : ServerState :=
  ⟨s.mem, some s.mem⟩

/-- `get_next_product_id` (src/mcp_server/mcp_server.py:42-46). -/
def get_next_product_id (products_data : List Product) : Int :=
  match products_data with
  | [] => 1
  | p :: ps => (ps.foldl (fun m q => max m q.id) p.id) + 1

/-- JSON rendering of one product, as the server returns it. -/
def productJVal (p : Product) : JVal :=
  .obj [("id", .num p.id), ("name", .str p.name), ("price", .num p.price),
        ("category", match p.category with | some c => .str c | none => .str ""),
        ("in_stock", .bool (p.in_stock.getD false))]

/-- `list_products` (src/mcp_server/mcp_server.py:49-73).  Note
`if category:` is false for both `None` and the empty string. -/
def list_products (category : Option String) (s : ServerState) :
    List (String × JVal) × ServerState :=
  let products := (load_products s).1
  let s' := (load_products s).2
  match category with
  | some c =>
    if c ≠ "" then
      let filtered := products.filter (fun p => pyLower (p.category.getD "") = pyLower c)
      ([("products", .arr (filtered.map productJVal)),
        ("total", .num filtered.length),
        ("category", .str c)], s')
    else
      ([("products", .arr (products.map productJVal)),
        ("total", .num products.length)], s')
  | none =>
    ([("products", .arr (products.map productJVal)),
      ("total", .num products.length)], s')

/-- `get_product` (src/mcp_server/mcp_server.py:76-99): linear scan by
id; `Except.error` models the raised `ValueError`. -/
def get_product (product_id : Int) (s : ServerState) :
    Except String (List (String × JVal)) × ServerState :=
  let products := (load_products s).1
  let s' := (load_products s).2
  match products.find? (fun p => p.id = product_id) with
  | some p => (.ok [("success", .bool true), ("product", productJVal p)], s')
  | none => (.error ("Product with ID " ++ toString product_id ++ " not found"), s')

/-- `add_product` (src/mcp_server/mcp_server.py:102-136): build a new
product with the next id, then run the
`products.append(...)`; `products_data.clear()`;
`products_data.extend(products)`; `save_products()` sequence.
`load_products()` returns the global `products_data` object itself, so
`products` is an alias of it: the `append` grows the shared list, the
`clear` then empties that same shared list (emptying `products` too),
and the `extend` iterates over the now-empty list, adding nothing.
The net effect is that the in-memory catalog becomes empty and
`save_products()` writes the empty list to the products file, while
the returned payload still carries the new product. -/
def add_product (name : String) (price : Rat) (category : String) (in_stock : Bool)
    (s : ServerState) : List (String × JVal) × ServerState :=
  let s' := (load_products s).2
  let new_product : Product :=
    ⟨get_next_product_id s'.mem, name, price, some category, some in_stock⟩
  let s'' := save_products ⟨[], s'.file⟩
  ([("success", .bool true), ("product", productJVal new_product)], s'')

/-- `get_statistics` (src/mcp_server/mcp_server.py:139-172).  The
empty-catalog branch returns the literal dict of lines 150-156, which
has no `out_of_stock_count` key; the non-empty branch computes all six
fields.  Python's `list(set(...))` ordering is unspecified; it is
modelled as order-of-first-occurrence deduplication, which no theorem
depends on. -/
def get_statistics (s : ServerState) : List (String × JVal) × ServerState :=
  let s' := (load_products s).2
  match (load_products s).1 with
  | [] =>
    ([("total_products", .num 0),
      ("average_price", .num 0),
      ("in_stock_count", .num 0),
      ("categories", .arr []),
      ("price_range", .obj [("min", .num 0), ("max", .num 0)])], s')
  | p :: ps =>
    let prices := (p :: ps).map (fun q => q.price)
    let categories := ((p :: ps).map (fun q => q.category.getD "Unknown")).dedup
    let in_stock_count := ((p :: ps).filter (fun q => q.in_stock.getD false)).length
    ([("total_products", .num (p :: ps).length),
      ("average_price", .num (prices.sum / prices.length)),
      ("in_stock_count", .num in_stock_count),
      ("out_of_stock_count", .num ((p :: ps).length - in_stock_count : Int)),
      ("categories", .arr (categories.map JVal.str)),
      ("price_range", .obj [("min", .num (prices.foldl min p.price)),
                            ("max", .num (prices.foldl max p.price))])], s')

/-- The catalog an operation observes: what `load_products` yields in
the given state. -/
def observedCatalog (s : ServerState) : List Product :=
  (load_products s).1

/-! ## Theorems -/

/-- Shared helper: a string built by prefixing `"Error calculating: "`
begins with `"Error"`. -/
theorem errorCalc_starts_with_Error (m : String) :
    strStartsWith ("Error calculating: " ++ m) "Error" = true := rfl

/-- C8: for every evaluation oracle and every input string, the
calculator returns a string (it is total by construction, modelling
"never raises"), and either that string is the successful result of
the body, or the body failed and the returned string begins with
"Error". -/
theorem calculator_always_text_error_prefix :
    ∀ (ev : String → PyResult Rat) (e : String),
      (∃ s, calcBody ev e = PyResult.ok s ∧ calculator ev e = s) ∨
      strStartsWith (calculator ev e) "Error" = true := by
  intro ev e
  cases h : calcBody ev e with
  | ok s => exact Or.inl ⟨s, rfl, by simp [calculator, h]⟩
  | exn m =>
    right
    show strStartsWith (calculator ev e) "Error" = true
    rw [calculator, h]
    exact errorCalc_starts_with_Error m

/-- C1 counterexample: a decoder that yields, for every line, a
response carrying id 999 together with a `result` value.  The client
sends id 1 (counter starts at 0), the response id 999 differs from it,
and yet `call_tool` returns the `Result` — no id comparison happens,
falsifying "the client never returns a Result from a response whose id
differs from the sent id". -/
theorem call_tool_returns_result_despite_id_mismatch :
    (call_tool (fun _ => some ⟨some 999, some (JVal.str "ok"), none⟩)
        0 "list_products" [] "x").2.2 = CallOutcome.result (JVal.str "ok") ∧
    (call_tool (fun _ => some ⟨some 999, some (JVal.str "ok"), none⟩)
        0 "list_products" [] "x").2.1.id = 1 ∧
    (999 : Int) ≠ 1 := by
  refine ⟨rfl, rfl, by decide⟩

/-- C1 amended: `call_tool` returns the `result` value of whatever
response the line decodes to, for every response id whatsoever — the
sent id is never compared against the response id. -/
theorem call_tool_result_ignores_response_id :
    ∀ (decode : String → Option MCPResponse) (rid : Nat) (name : String)
      (args : List (String × JVal)) (line : String) (r : MCPResponse) (v : JVal),
      pyStrip line ≠ "" →
      decode (pyStrip line) = some r →
      r.result = some v →
      (call_tool decode rid name args line).2.2 = CallOutcome.result v := by
  intro decode rid name args line r v hne hdec hres
  simp only [call_tool, if_pos hne, hdec, hres]

/-- Witness for the C1 amended theorem at a concrete decoder whose
response has id 999 while the sent id is 1. -/
theorem call_tool_result_ignores_response_id_witness :
    pyStrip "x" ≠ "" ∧
    (call_tool (fun _ => some ⟨some 999, some (JVal.str "ok"), none⟩)
        0 "t" [] "x").2.2 = CallOutcome.result (JVal.str "ok") :=
  ⟨by decide,
   call_tool_result_ignores_response_id
     (fun _ => some ⟨some 999, some (JVal.str "ok"), none⟩)
     0 "t" [] "x" ⟨some 999, some (JVal.str "ok"), none⟩ (JVal.str "ok")
     (by decide) rfl rfl⟩

/-- C2 counterexample: on an empty response line, `call_tool` simply
returns Python `None` (a silent, non-error value) — it does not signal
`ProtocolError("no response")`; indeed no `ProtocolError` class exists
in the code.  This falsifies "in neither case does it silently return
a non-error value to the caller". -/
theorem call_tool_empty_line_returns_none :
    (call_tool (fun _ => none) 0 "list_products" [] "").2.2 = CallOutcome.retNone := rfl

/-- C2 amended: an empty or missing response line makes `call_tool`
return `None` (no error is signalled), and a non-decodable line makes
the `json.loads` decode exception propagate (modelled as
`decodeFail`), not a `ProtocolError("malformed response")`.  In both
cases exactly one request is sent and the call is never retried (the
returned request is the single one built for this call). -/
theorem call_tool_failure_modes :
    ∀ (decode : String → Option MCPResponse) (rid : Nat) (name : String)
      (args : List (String × JVal)) (line : String),
      (pyStrip line = "" →
        (call_tool decode rid name args line).2.2 = CallOutcome.retNone) ∧
      (pyStrip line ≠ "" → decode (pyStrip line) = none →
        (call_tool decode rid name args line).2.2 = CallOutcome.decodeFail) ∧
      (call_tool decode rid name args line).2.1 = ⟨"2.0", rid + 1, "tools/call", name, args⟩ := by
  intro decode rid name args line
  refine ⟨fun h => ?_, fun hne hdec => ?_, rfl⟩
  · simp only [call_tool, h]
    simp
  · simp only [call_tool, if_pos hne, hdec]

/-- Witness for the C2 amended theorem: the empty-line case at `""`
and the non-decodable case at line `"x"` with an always-failing
decoder. -/
theorem call_tool_failure_modes_witness :
    (pyStrip "" = "" →
      (call_tool (fun _ => none) 0 "t" [] "").2.2 = CallOutcome.retNone) ∧
    ((call_tool (fun _ => none) 0 "t" [] "").2.2 = CallOutcome.retNone) ∧
    ((call_tool (fun _ => none) 0 "t" [] "x").2.2 = CallOutcome.decodeFail) :=
  ⟨(call_tool_failure_modes (fun _ => none) 0 "t" [] "").1,
   (call_tool_failure_modes (fun _ => none) 0 "t" [] "").1 (by decide),
   (call_tool_failure_modes (fun _ => none) 0 "t" [] "x").2.1 (by decide) rfl⟩

/-- Shared helper: the ids a client sends over its lifetime form the
interval starting right above the initial counter value, one id per
call, whatever the decode results are. -/
theorem sentIds_eq_range' :
    ∀ (decode : String → Option MCPResponse)
      (calls : List (String × List (String × JVal) × String)) (rid : Nat),
      sentIds decode rid calls = List.range' (rid + 1) calls.length := by
  intro decode calls
  induction calls with
  | nil => intro rid; rfl
  | cons c rest ih =>
    intro rid
    obtain ⟨name, args, line⟩ := c
    have hstep : sentIds decode rid ((name, args, line) :: rest)
        = (rid + 1) :: sentIds decode (rid + 1) rest := rfl
    rw [hstep, ih (rid + 1), List.length_cons, List.range'_succ]

/-- C3: over a client's whole lifetime — whatever each call's outcome,
including errors — the first request is sent with id 1 and the sent
ids are pairwise strictly increasing, so no id is ever reused. -/
theorem client_ids_start_at_one_strictly_increase :
    ∀ (decode : String → Option MCPResponse)
      (calls : List (String × List (String × JVal) × String)),
      (calls ≠ [] → (sentIds decode 0 calls).head? = some 1) ∧
      List.Pairwise (· < ·) (sentIds decode 0 calls) := by
  intro decode calls
  rw [sentIds_eq_range' decode calls 0]
  constructor
  · intro hne
    cases calls with
    | nil => exact absurd rfl hne
    | cons c rest => simp [List.range'_succ]
  · exact List.pairwise_lt_range' _ _ _

/-- Witness for C3 on a concrete two-call lifetime (second call's line
decodes to nothing, i.e. the first ends in a decode error — the id is
still not reused). -/
theorem client_ids_start_at_one_strictly_increase_witness :
    ([("t", [], ""), ("u", [], "x")] ≠
        ([] : List (String × List (String × JVal) × String)) ∧
      (sentIds (fun _ => none) 0 [("t", [], ""), ("u", [], "x")]).head? = some 1) ∧
    List.Pairwise (· < ·) (sentIds (fun _ => none) 0 [("t", [], ""), ("u", [], "x")]) :=
  ⟨⟨by simp,
    (client_ids_start_at_one_strictly_increase (fun _ => none)
      [("t", [], ""), ("u", [], "x")]).1 (by simp)⟩,
   (client_ids_start_at_one_strictly_increase (fun _ => none)
      [("t", [], ""), ("u", [], "x")]).2⟩

/-- C4: any query whose lowered text contains one of the configured
"list everything" phrases routes to `list_products` with the empty
argument mapping — whatever else the query contains, whatever the
client answers, because this rule is the first branch of the chain. -/
theorem route_list_all_selects_list_products_empty_args :
    ∀ (f : String → CallArgs → Except String String) (ev : String → PyResult Rat)
      (q : String),
      listAllCond (pyLower q) = true →
      (process_user_query (some f) ev q).1 = [("list_products", CallArgs.emptyArgs)] := by
  intro f ev q h
  cases hf : f "list_products" CallArgs.emptyArgs <;>
    simp [process_user_query, h, hf]

/-- Witness for C4 at the query `"please show products now"`. -/
theorem route_list_all_selects_list_products_empty_args_witness :
    listAllCond (pyLower "please show products now") = true ∧
    (process_user_query (some (fun _ _ => Except.ok "r")) (fun _ => PyResult.exn "e")
        "please show products now").1 = [("list_products", CallArgs.emptyArgs)] :=
  ⟨rfl,
   route_list_all_selects_list_products_empty_args
     (fun _ _ => Except.ok "r") (fun _ => PyResult.exn "e") "please show products now" rfl⟩

/-- C5: a query that misses the list-all rule but contains a category
phrase always routes to `list_products` with the hard-coded category
literal `"Электроника"`, independent of which category phrase appeared
in the text. -/
theorem route_category_uses_fixed_literal :
    ∀ (f : String → CallArgs → Except String String) (ev : String → PyResult Rat)
      (q : String),
      listAllCond (pyLower q) = false →
      categoryCond (pyLower q) = true →
      (process_user_query (some f) ev q).1
        = [("list_products", CallArgs.categoryArg "Электроника")] := by
  intro f ev q h1 h2
  cases hf : f "list_products" (CallArgs.categoryArg "Электроника") <;>
    simp [process_user_query, h1, h2, hf]

/-- Witness for C5 at the English query `"category please"` — it still
resolves to the fixed literal `"Электроника"`. -/
theorem route_category_uses_fixed_literal_witness :
    (listAllCond (pyLower "category please") = false ∧
      categoryCond (pyLower "category please") = true) ∧
    (process_user_query (some (fun _ _ => Except.ok "r")) (fun _ => PyResult.exn "e")
        "category please").1 = [("list_products", CallArgs.categoryArg "Электроника")] :=
  ⟨⟨rfl, rfl⟩,
   route_category_uses_fixed_literal
     (fun _ _ => Except.ok "r") (fun _ => PyResult.exn "e") "category please" rfl rfl⟩

/-- Shared helper: when no word `"id"` is followed by a parseable
integer, the get-by-id scan makes no call and appends no part. -/
theorem findIdLoop_no_valid_token :
    ∀ (mcp : Option (String → CallArgs → Except String String)) (ws : List String),
      hasValidIdToken ws = false → findIdLoop mcp ws = ([], []) := by
  intro mcp ws
  induction ws with
  | nil => intro _; rfl
  | cons w rest ih =>
    intro h
    rw [hasValidIdToken.eq_def] at h
    rw [Bool.or_eq_false_iff] at h
    obtain ⟨hhead, htail⟩ := h
    by_cases hw : w = "id"
    · subst hw
      cases rest with
      | nil => rfl
      | cons next r' =>
        have hh2 : (pyInt next).isSome = false := by simpa using hhead
        cases hn : pyInt next with
        | some v => rw [hn] at hh2; simp at hh2
        | none =>
          have hstep : findIdLoop mcp ("id" :: next :: r') = findIdLoop mcp (next :: r') := by
            conv_lhs => rw [findIdLoop.eq_def]
            simp [hn]
          rw [hstep]
          exact ih htail
    · simp [findIdLoop, hw, ih htail]

/-- C6 counterexample: the query `"товар abc"` matches the get-by-id
rule and contains no parseable integer, and `process_user_query`
returns the EMPTY string (its `response_parts` list stays empty) — not
a fixed, non-empty clarification message.  The clarification message
`"Please specify a product ID."` exists only in `MockLLM._generate`,
which `process_user_query` never consults. -/
theorem route_get_by_id_without_int_returns_empty_string :
    process_user_query (some (fun _ _ => Except.ok "r")) (fun _ => PyResult.exn "e")
        "товар abc" = ([], "") := rfl

/-- C6 amended: a query that reaches the get-by-id rule with no
parseable integer after any `"id"` word issues no tool call and yields
the empty string as user-facing result (no clarification message). -/
theorem route_get_by_id_without_int_no_call_empty_result :
    ∀ (mcp : Option (String → CallArgs → Except String String))
      (ev : String → PyResult Rat) (q : String),
      listAllCond (pyLower q) = false →
      categoryCond (pyLower q) = false →
      statsCond (pyLower q) = false →
      productCond (pyLower q) = true →
      hasValidIdToken (pyWords (pyLower q)) = false →
      process_user_query mcp ev q = ([], "") := by
  intro mcp ev q h1 h2 h3 h4 h5
  simp [process_user_query, h1, h2, h3, h4,
    findIdLoop_no_valid_token mcp _ h5, joinSpace]

/-- Witness for the C6 amended theorem at `"find товар please"` with
no client attached. -/
theorem route_get_by_id_without_int_no_call_empty_result_witness :
    (productCond (pyLower "find товар please") = true ∧
      hasValidIdToken (pyWords (pyLower "find товар please")) = false) ∧
    process_user_query .none (fun _ => PyResult.exn "e") "find товар please" = ([], "") :=
  ⟨⟨rfl, rfl⟩,
   route_get_by_id_without_int_no_call_empty_result
     .none (fun _ => PyResult.exn "e") "find товар please" rfl rfl rfl rfl rfl⟩

/-- C7 counterexample: the query `"20% of 300"` reaches the
calculate/discount rule; the numeric token before the percent sign is
`20` and the trailing numeric token is `300`, yet the calculator is
invoked with the constant expression `"15% of 50000"`, not
`"20% of 300"`.  The query-derived "X% of Y" construction exists only
in `MockLLM._generate`, which `process_user_query` never consults. -/
theorem route_calc_operands_not_from_query :
    (process_user_query (some (fun _ _ => Except.ok "r")) (fun _ => PyResult.exn "e")
        "20% of 300").1 = [("calculator", CallArgs.expressionArg "15% of 50000")] ∧
    ("15% of 50000" : String) ≠ "20% of 300" :=
  ⟨rfl, by decide⟩

/-- C7 amended: every query handled by the calculate/discount rule
invokes the calculator with the fixed expression `"15% of 50000"`,
regardless of the numeric content of the query. -/
theorem route_calc_always_fixed_expression :
    ∀ (f : String → CallArgs → Except String String) (ev : String → PyResult Rat)
      (q : String),
      listAllCond (pyLower q) = false →
      categoryCond (pyLower q) = false →
      statsCond (pyLower q) = false →
      productCond (pyLower q) = false →
      addCond (pyLower q) = false →
      calcCond (pyLower q) = true →
      (process_user_query (some f) ev q).1
        = [("calculator", CallArgs.expressionArg "15% of 50000")] := by
  intro f ev q h1 h2 h3 h4 h5 h6
  simp [process_user_query, h1, h2, h3, h4, h5, h6]

/-- Witness for the C7 amended theorem at `"20% скидка"`. -/
theorem route_calc_always_fixed_expression_witness :
    calcCond (pyLower "20% скидка") = true ∧
    (process_user_query (some (fun _ _ => Except.ok "r")) (fun _ => PyResult.exn "e")
        "20% скидка").1 = [("calculator", CallArgs.expressionArg "15% of 50000")] :=
  ⟨rfl,
   route_calc_always_fixed_expression
     (fun _ _ => Except.ok "r") (fun _ => PyResult.exn "e") "20% скидка"
     rfl rfl rfl rfl rfl rfl⟩

/-- Shared helper: after `load_products`, the in-memory list equals
the list the load returned. -/
theorem load_products_mem (s : ServerState) :
    (load_products s).2.mem = (load_products s).1 := by
  obtain ⟨mem, file⟩ := s
  cases mem <;> cases file <;> rfl

/-- Shared helper: `load_products` never changes the products file. -/
theorem load_products_file (s : ServerState) :
    (load_products s).2.file = s.file := by
  obtain ⟨mem, file⟩ := s
  cases mem <;> cases file <;> rfl

/-- Shared helper: loading is idempotent, so the catalog observed
after a load equals the one observed before. -/
theorem load_products_idem (s : ServerState) :
    load_products ((load_products s).2) = load_products s := by
  obtain ⟨mem, file⟩ := s
  cases mem with
  | nil =>
    cases file with
    | none => rfl
    | some l => cases l <;> rfl
  | cons p ps => cases file <;> rfl

/-- Shared helper: `list_products` leaves the state exactly as
`load_products` left it. -/
theorem list_products_state (cat : Option String) (s : ServerState) :
    (list_products cat s).2 = (load_products s).2 := by
  cases cat with
  | none => rfl
  | some c =>
    by_cases hc : c = ""
    · simp [list_products, hc]
    · simp [list_products, hc]

/-- Shared helper: `get_product` leaves the state exactly as
`load_products` left it. -/
theorem get_product_state (pid : Int) (s : ServerState) :
    (get_product pid s).2 = (load_products s).2 := by
  cases hf : (load_products s).1.find? (fun p => p.id = pid) <;>
    simp [get_product, hf]

/-- Shared helper: `get_statistics` leaves the state exactly as
`load_products` left it. -/
theorem get_statistics_state (s : ServerState) :
    (get_statistics s).2 = (load_products s).2 := by
  cases h : (load_products s).1 <;> simp [get_statistics, h]

/-- C9 counterexample: on the empty catalog, the dict returned by
`get_statistics` has exactly the five keys of the literal at
src/mcp_server/mcp_server.py:150-156 — `out_of_stock_count` is
missing, falsifying "the full field set ... is present". -/
theorem stats_empty_catalog_missing_out_of_stock_count :
    ((get_statistics ⟨[], none⟩).1.map Prod.fst
      = ["total_products", "average_price", "in_stock_count", "categories", "price_range"]) ∧
    "out_of_stock_count" ∉ (get_statistics ⟨[], none⟩).1.map Prod.fst :=
  ⟨rfl, by decide⟩

/-- C9 amended: on an empty catalog `get_statistics` does not fail and
returns zeros/empty values for `total_products`, `average_price`,
`in_stock_count`, `categories` and `price_range` — but the
`out_of_stock_count` key is absent from the result. -/
theorem stats_empty_catalog_returns_zeros :
    ∀ s : ServerState, observedCatalog s = [] →
      (get_statistics s).1
        = [("total_products", JVal.num 0), ("average_price", JVal.num 0),
           ("in_stock_count", JVal.num 0), ("categories", JVal.arr []),
           ("price_range", JVal.obj [("min", JVal.num 0), ("max", JVal.num 0)])] := by
  intro s h
  have h' : (load_products s).1 = [] := h
  simp [get_statistics, h']

/-- Witness for the C9 amended theorem at the empty state (no file,
empty memory). -/
theorem stats_empty_catalog_returns_zeros_witness :
    observedCatalog ⟨[], none⟩ = [] ∧
    (get_statistics ⟨[], none⟩).1
      = [("total_products", JVal.num 0), ("average_price", JVal.num 0),
         ("in_stock_count", JVal.num 0), ("categories", JVal.arr []),
         ("price_range", JVal.obj [("min", JVal.num 0), ("max", JVal.num 0)])] :=
  ⟨rfl, stats_empty_catalog_returns_zeros ⟨[], none⟩ rfl⟩

/-- C10: the read-only tools `list_products`, `get_product` and
`get_statistics` never write the products file and never change the
catalog subsequent operations observe; `add_product` is the only
operation that mutates the catalog and writes the products file.
(Because `products` aliases the global `products_data` in the source,
the `clear`/`extend` sequence nets the shared list to empty, so the
catalog `add_product` ends up holding and saving is the empty list —
the theorem states that exact post-state.) -/
theorem readonly_tools_frame_only_add_mutates :
    ∀ (s : ServerState) (cat : Option String) (pid : Int) (name : String)
      (price : Rat) (ctg : String) (stk : Bool),
      (list_products cat s).2.file = s.file ∧
      observedCatalog ((list_products cat s).2) = observedCatalog s ∧
      (get_product pid s).2.file = s.file ∧
      observedCatalog ((get_product pid s).2) = observedCatalog s ∧
      (get_statistics s).2.file = s.file ∧
      observedCatalog ((get_statistics s).2) = observedCatalog s ∧
      (add_product name price ctg stk s).2.mem = [] ∧
      (add_product name price ctg stk s).2.file = some [] := by
  intro s cat pid name price ctg stk
  have hobs : observedCatalog ((load_products s).2) = observedCatalog s :=
    congrArg Prod.fst (load_products_idem s)
  refine ⟨?_, ?_, ?_, ?_, ?_, ?_, rfl, rfl⟩
  · rw [list_products_state, load_products_file]
  · rw [list_products_state]; exact hobs
  · rw [get_product_state, load_products_file]
  · rw [get_product_state]; exact hobs
  · rw [get_statistics_state, load_products_file]
  · rw [get_statistics_state]; exact hobs

end AIMCPAgent
